import Mathlib

/-!
Verification of the transmission build-out and local transmission &
distribution modules of a multi-period electricity capacity-expansion model.

The embedding below mirrors, definition by definition, the model components
declared in `switch_model/transmission/transport/build.py` and
`switch_model/transmission/local_td.py`:

* load zones, timepoints, periods and transmission-line identifiers are
  modelled as natural numbers (period labels are ordered by `≤`, matching the
  `bld_yr <= period` comparison on year labels in the source);
* all physical and monetary quantities are modelled as rationals;
* a Pyomo `Param` becomes a field of a model structure, a `Var` becomes an
  assignment function passed explicitly, an `Expression` becomes a function of
  the model and the variable assignments, and a `Constraint` becomes a `Prop`.
-/

namespace SwitchWecc

/-- Static data of the transmission build module
(`switch_model/transmission/transport/build.py`).  Fields mirror the Pyomo
sets and parameters declared in `define_components`.
`trans_capital_cost_finite` records the outcome of the source's
`m.trans_capital_cost_per_mw_km != float("inf")` test, since `ℚ` has no
infinity to compare against. -/
structure TransBuildModel where
  TRANSMISSION_LINES : List ℕ
  PERIODS : List ℕ
  trans_lz1 : ℕ → ℕ
  trans_lz2 : ℕ → ℕ
  trans_length_km : ℕ → ℚ
  trans_efficiency : ℕ → ℚ
  existing_trans_cap : ℕ → ℚ
  trans_derating_factor : ℕ → ℚ
  trans_terrain_multiplier : ℕ → ℚ
  trans_new_build_allowed : ℕ → Bool
  trans_capital_cost_per_mw_km : ℚ
  trans_capital_cost_finite : Bool
  trans_lifetime_yrs : ℕ
  trans_fixed_om_fraction : ℚ
  interest_rate : ℚ

/-- Membership test for the set `TRANS_BLD_YRS`:
`TRANSMISSION_LINES * PERIODS` filtered by
`trans_new_build_allowed[tx] and trans_capital_cost_per_mw_km != inf`. -/
def TRANS_BLD_YRS_mem (m : TransBuildModel) (tx p : ℕ) : Bool :=
  (tx ∈ m.TRANSMISSION_LINES) && (p ∈ m.PERIODS) &&
    m.trans_new_build_allowed tx && m.trans_capital_cost_finite

/-- Expression `NewTxCapacity[tx, period]`: the sum of `BuildTx[tx, bld_yr]` over
`bld_yr in PERIODS` with `bld_yr <= period and (tx, bld_yr) in TRANS_BLD_YRS`.
`B` is the `BuildTx` variable assignment. -/
def NewTxCapacity (m : TransBuildModel) (B : ℕ → ℕ → ℚ) (tx p : ℕ) : ℚ :=
  ((m.PERIODS.filter (fun b => b ≤ p && TRANS_BLD_YRS_mem m tx b)).map
    (fun b => B tx b)).sum

/-- Expression `TxCapacityNameplate[tx, p] = NewTxCapacity[tx, p] + existing_trans_cap[tx]`. -/
def TxCapacityNameplate (m : TransBuildModel) (B : ℕ → ℕ → ℚ) (tx p : ℕ) : ℚ :=
  NewTxCapacity m B tx p + m.existing_trans_cap tx

/-- Expression `TxCapacityNameplateAvailable[tx, period] =
TxCapacityNameplate[tx, period] * trans_derating_factor[tx]`. -/
def TxCapacityNameplateAvailable (m : TransBuildModel) (B : ℕ → ℕ → ℚ)
    (tx p : ℕ) : ℚ :=
  TxCapacityNameplate m B tx p * m.trans_derating_factor tx

/-- Modelled from the spec: `capital_recovery_factor` is imported from
`switch_model.financials`, which is not among the given sources.  The spec
defines it as `crf(rate, lifetime) = rate / (1 - (1+rate)^-lifetime)` for
`rate > 0`, with the zero-rate limit `crf(0, lifetime) = 1/lifetime`
special-cased to avoid a division by zero.  The lifetime is a whole number of
years. -/
def crf (rate : ℚ) (lifetime : ℕ) : ℚ :=
  if rate = 0 then 1 / lifetime
  else rate / (1 - (1 + rate) ^ (-(lifetime : ℤ)))

/-- Parameter `trans_cost_annual[tx] = trans_capital_cost_per_mw_km *
trans_terrain_multiplier[tx] * trans_length_km[tx] *
(crf(interest_rate, trans_lifetime_yrs) + trans_fixed_om_fraction)`. -/
def trans_cost_annual (m : TransBuildModel) (tx : ℕ) : ℚ :=
  m.trans_capital_cost_per_mw_km * m.trans_terrain_multiplier tx *
    m.trans_length_km tx *
    (crf m.interest_rate m.trans_lifetime_yrs + m.trans_fixed_om_fraction)

/-- Expression `TxLineCosts[tx, p] = NewTxCapacity[tx, p] * trans_cost_annual[tx]`
when `(tx, p) in TRANS_BLD_YRS`, else `0`. -/
def TxLineCosts (m : TransBuildModel) (B : ℕ → ℕ → ℚ) (tx p : ℕ) : ℚ :=
  if TRANS_BLD_YRS_mem m tx p then NewTxCapacity m B tx p * trans_cost_annual m tx
  else 0

/-- Expression `TxFixedCosts[p]`: the sum of `TxLineCosts[tx, p]` over all
transmission lines. -/
def TxFixedCosts (m : TransBuildModel) (B : ℕ → ℕ → ℚ) (p : ℕ) : ℚ :=
  (m.TRANSMISSION_LINES.map (fun tx => TxLineCosts m B tx p)).sum

/-- Function `init_DIRECTIONAL_TX`: the set accumulated by inserting, for each
transmission line, both `(trans_lz1[tx], trans_lz2[tx])` and
`(trans_lz2[tx], trans_lz1[tx])`. -/
def DIRECTIONAL_TX (m : TransBuildModel) : Finset (ℕ × ℕ) :=
  (m.TRANSMISSION_LINES.flatMap (fun tx =>
    [(m.trans_lz1 tx, m.trans_lz2 tx), (m.trans_lz2 tx, m.trans_lz1 tx)])).toFinset

/-- Function `init_trans_d_line`: scan `TRANSMISSION_LINES` in order and return the
first line whose endpoints match `(zone_from, zone_to)` in either
orientation; the Python function falls through (returns `None`) when no line
matches, modelled by `Option`. -/
def init_trans_d_line (m : TransBuildModel) (zone_from zone_to : ℕ) : Option ℕ :=
  m.TRANSMISSION_LINES.find? (fun tx =>
    (m.trans_lz1 tx == zone_from && m.trans_lz2 tx == zone_to) ||
    (m.trans_lz2 tx == zone_from && m.trans_lz1 tx == zone_to))

/-- Static data of the local transmission & distribution module
(`switch_model/transmission/local_td.py`).  `tp_period`,
`ZONE_TIMEPOINTS` (zones × timepoints), the set
`EXTERNAL_COINCIDENT_PEAK_DEMAND_ZONE_PERIODS` and the parameter
`zone_expected_coincident_peak_demand` are supplied by the `timescales` and
`load_zones` dependencies, which are not among the given sources; they are
carried as abstract fields here. -/
structure LocalTDModel where
  LOAD_ZONES : List ℕ
  PERIODS : List ℕ
  TIMEPOINTS : List ℕ
  tp_period : ℕ → ℕ
  existing_local_td : ℕ → ℚ
  local_td_annual_cost_per_mw : ℕ → ℚ
  distribution_loss_rate : ℚ
  EXTERNAL_COINCIDENT_PEAK_DEMAND_ZONE_PERIODS : List (ℕ × ℕ)
  zone_expected_coincident_peak_demand : ℕ → ℕ → ℚ

/-- Index set `ZONE_TIMEPOINTS`: all (load zone, timepoint) pairs. -/
def ZONE_TIMEPOINTS (m : LocalTDModel) : List (ℕ × ℕ) :=
  m.LOAD_ZONES.flatMap (fun z => m.TIMEPOINTS.map (fun t => (z, t)))

/-- Modelled from the spec: `CURRENT_AND_PRIOR_PERIODS_FOR_PERIOD` is defined
by the `timescales` dependency, which is not among the given sources.  The
spec describes it as the set of periods with start ≤ the given period's start,
including the period itself; period labels here are ordered by `≤`. -/
def CURRENT_AND_PRIOR_PERIODS_FOR_PERIOD (m : LocalTDModel) (p : ℕ) : List ℕ :=
  m.PERIODS.filter (fun b => b ≤ p)

/-- Expression `LocalTDCapacity[z, period]`: `existing_local_td[z]` plus the sum of
`BuildLocalTD[z, bld_yr]` over `bld_yr in
CURRENT_AND_PRIOR_PERIODS_FOR_PERIOD[period]`.  `BL` is the `BuildLocalTD`
variable assignment. -/
def LocalTDCapacity (m : LocalTDModel) (BL : ℕ → ℕ → ℚ) (z p : ℕ) : ℚ :=
  m.existing_local_td z +
    ((CURRENT_AND_PRIOR_PERIODS_FOR_PERIOD m p).map (fun b => BL z b)).sum

/-- Constraint `Meet_Local_TD`: for every `(z, period)` in
`EXTERNAL_COINCIDENT_PEAK_DEMAND_ZONE_PERIODS`,
`LocalTDCapacity[z, period] * (1 - distribution_loss_rate) >=
zone_expected_coincident_peak_demand[z, period]`. -/
def Meet_Local_TD (m : LocalTDModel) (BL : ℕ → ℕ → ℚ) : Prop :=
  ∀ zp ∈ m.EXTERNAL_COINCIDENT_PEAK_DEMAND_ZONE_PERIODS,
    LocalTDCapacity m BL zp.1 zp.2 * (1 - m.distribution_loss_rate) ≥
      m.zone_expected_coincident_peak_demand zp.1 zp.2

/-- The `WithdrawFromCentralGrid` variable is declared over `ZONE_TIMEPOINTS`
with domain `NonNegativeReals`: an assignment is admissible when it is
non-negative on every indexed pair. -/
def WithdrawFromCentralGrid_domain (m : LocalTDModel) (W : ℕ → ℕ → ℚ) : Prop :=
  ∀ zt ∈ ZONE_TIMEPOINTS m, 0 ≤ W zt.1 zt.2

/-- Constraint `Enforce_Local_TD_Capacity_Limit`: for every `(z, t)` in
`ZONE_TIMEPOINTS`, `WithdrawFromCentralGrid[z, t] <=
LocalTDCapacity[z, tp_period[t]]`. -/
def Enforce_Local_TD_Capacity_Limit (m : LocalTDModel) (BL W : ℕ → ℕ → ℚ) : Prop :=
  ∀ zt ∈ ZONE_TIMEPOINTS m, W zt.1 zt.2 ≤ LocalTDCapacity m BL zt.1 (m.tp_period zt.2)

/-- Expression `InjectIntoDistributedGrid[z, t] = WithdrawFromCentralGrid[z, t] *
(1 - distribution_loss_rate)`. -/
def InjectIntoDistributedGrid (m : LocalTDModel) (W : ℕ → ℕ → ℚ) (z t : ℕ) : ℚ :=
  W z t * (1 - m.distribution_loss_rate)

/-- Modelled from the spec: the local-distribution asset carries no derating
parameter in `local_td.py`; per the spec's data model a derating factor is
optional with default 1, so the local asset's factor is the constant 1. -/
def local_td_derating_factor : ℚ := 1

/-- Constraint `Distributed_Energy_Balance[z, t]`: the sum over the component names
registered in `Distributed_Power_Injections`, each resolved through the model
environment (`getattr`) and indexed at `[z, t]`, equals the corresponding sum
over `Distributed_Power_Withdrawals`.  `env` plays the role of `getattr`. -/
def Distributed_Energy_Balance (env : String → ℕ → ℕ → ℚ)
    (injections withdrawals : List String) (z t : ℕ) : Prop :=
  (injections.map (fun c => env c z t)).sum =
    (withdrawals.map (fun c => env c z t)).sum

/-! ### Helper lemmas -/

/-- Summing a non-negative function over a filter with a weaker predicate
dominates the sum over a filter with a stronger predicate. -/
theorem sum_map_filter_mono {l : List ℕ} {P Q : ℕ → Bool} {f : ℕ → ℚ}
    (hPQ : ∀ b, P b = true → Q b = true) (hf : ∀ b ∈ l, 0 ≤ f b) :
    ((l.filter P).map f).sum ≤ ((l.filter Q).map f).sum := by
  induction l with
  | nil => simp
  | cons a l ih =>
    have hfa : 0 ≤ f a := hf a (List.mem_cons_self a l)
    have hfl : ∀ b ∈ l, 0 ≤ f b := fun b hb => hf b (List.mem_cons_of_mem a hb)
    by_cases hP : P a = true
    · have hQ : Q a = true := hPQ a hP
      simp only [List.filter_cons, hP, hQ, if_true, List.map_cons, List.sum_cons]
      exact add_le_add_left (ih hfl) (f a)
    · by_cases hQ : Q a = true
      · simp only [List.filter_cons, hP, hQ, if_true, if_false, List.map_cons,
          List.sum_cons]
        calc ((l.filter P).map f).sum ≤ ((l.filter Q).map f).sum := ih hfl
          _ ≤ f a + ((l.filter Q).map f).sum := le_add_of_nonneg_left hfa
      · simp only [List.filter_cons, hP, hQ, if_false]
        exact ih hfl

/-- A scan with `find?` returns the designated element when it is the unique element of
the list satisfying the predicate. -/
theorem find?_eq_some_of_unique {l : List ℕ} {p : ℕ → Bool} {a : ℕ}
    (ha : a ∈ l) (hpa : p a = true)
    (huniq : ∀ b ∈ l, p b = true → b = a) : l.find? p = some a := by
  induction l with
  | nil => exact absurd ha (List.not_mem_nil a)
  | cons c l ih =>
    by_cases hpc : p c = true
    · have hca : c = a := huniq c (List.mem_cons_self c l) hpc
      subst hca
      exact List.find?_cons_of_pos l hpc
    · have hca : a ≠ c := fun h => hpc (h ▸ hpa)
      have ha' : a ∈ l := by
        rcases List.mem_cons.mp ha with h | h
        · exact absurd h hca
        · exact h
      have huniq' : ∀ b ∈ l, p b = true → b = a :=
        fun b hb hpb => huniq b (List.mem_cons_of_mem c hb) hpb
      rw [List.find?_cons_of_neg l (by simpa using hpc)]
      exact ih ha' huniq'

/-! ### Claims -/

/-- C1: for every load zone and timepoint the compiled
`Distributed_Energy_Balance` constraint is the equality of the sum over the
registered injection components with the sum over the registered withdrawal
components, and the constraint is the same for any reordering of the two
dynamic lists. -/
theorem c1_balance_is_sum_equality_and_order_independent
    (env : String → ℕ → ℕ → ℚ) (inj₁ inj₂ wd₁ wd₂ : List String)
    (hinj : inj₁.Perm inj₂) (hwd : wd₁.Perm wd₂) (z t : ℕ) :
    (Distributed_Energy_Balance env inj₁ wd₁ z t ↔
      (inj₁.map (fun c => env c z t)).sum = (wd₁.map (fun c => env c z t)).sum) ∧
    (Distributed_Energy_Balance env inj₁ wd₁ z t ↔
      Distributed_Energy_Balance env inj₂ wd₂ z t) := by
  constructor
  · exact Iff.rfl
  · unfold Distributed_Energy_Balance
    rw [(hinj.map (fun c => env c z t)).sum_eq, (hwd.map (fun c => env c z t)).sum_eq]

/-- Witness for C1 at a concrete environment and concrete component lists
registered in two different orders. -/
theorem c1_witness :
    (["InjectIntoDistributedGrid", "FlexibleLoad"] : List String).Perm
        ["FlexibleLoad", "InjectIntoDistributedGrid"] ∧
    (["zone_demand_mw"] : List String).Perm ["zone_demand_mw"] ∧
    ((Distributed_Energy_Balance
        (fun c z t => if c = "zone_demand_mw" then 15 else (z : ℚ) + t + 5)
        ["InjectIntoDistributedGrid", "FlexibleLoad"] ["zone_demand_mw"] 1 1 ↔
      ((["InjectIntoDistributedGrid", "FlexibleLoad"] : List String).map
          (fun c => (fun c z t => if c = "zone_demand_mw" then 15 else (z : ℚ) + t + 5) c 1 1)).sum =
        ((["zone_demand_mw"] : List String).map
          (fun c => (fun c z t => if c = "zone_demand_mw" then 15 else (z : ℚ) + t + 5) c 1 1)).sum) ∧
    (Distributed_Energy_Balance
        (fun c z t => if c = "zone_demand_mw" then 15 else (z : ℚ) + t + 5)
        ["InjectIntoDistributedGrid", "FlexibleLoad"] ["zone_demand_mw"] 1 1 ↔
      Distributed_Energy_Balance
        (fun c z t => if c = "zone_demand_mw" then 15 else (z : ℚ) + t + 5)
        ["FlexibleLoad", "InjectIntoDistributedGrid"] ["zone_demand_mw"] 1 1)) :=
  ⟨List.Perm.swap _ _ _, List.Perm.refl _,
    c1_balance_is_sum_equality_and_order_independent
      (fun c z t => if c = "zone_demand_mw" then 15 else (z : ℚ) + t + 5)
      ["InjectIntoDistributedGrid", "FlexibleLoad"]
      ["FlexibleLoad", "InjectIntoDistributedGrid"]
      ["zone_demand_mw"] ["zone_demand_mw"]
      (List.Perm.swap _ _ _) (List.Perm.refl _) 1 1⟩

/-- C9: the capital recovery factor satisfies
`crf r L = r / (1 - (1+r)^(-L))` and is strictly positive for `r > 0` and
`L > 0`, and `crf 0 L = 1/L` by the explicit zero-rate special case. -/
theorem c9_crf_formula_positive_and_zero_case (r : ℚ) (L : ℕ)
    (hr : 0 < r) (hL : 0 < L) :
    crf r L = r / (1 - (1 + r) ^ (-(L : ℤ))) ∧ 0 < crf r L ∧
      crf 0 L = 1 / L := by
  have hformula : crf r L = r / (1 - (1 + r) ^ (-(L : ℤ))) := by
    unfold crf
    rw [if_neg hr.ne']
  refine ⟨hformula, ?_, by unfold crf; rw [if_pos rfl]⟩
  have h1 : (1 : ℚ) < 1 + r := by linarith
  have hpow : (1 : ℚ) < (1 + r) ^ L := one_lt_pow₀ h1 hL.ne'
  have hpow0 : (0 : ℚ) < (1 + r) ^ L := lt_trans one_pos hpow
  have hz : (1 + r) ^ (-(L : ℤ)) = ((1 + r) ^ L)⁻¹ := by
    rw [zpow_neg, zpow_natCast]
  have hinv : ((1 + r) ^ L)⁻¹ < 1 := by
    rw [inv_eq_one_div, div_lt_one hpow0]
    exact hpow
  have hden : 0 < 1 - (1 + r) ^ (-(L : ℤ)) := by
    rw [hz]; linarith
  rw [hformula]
  exact div_pos hr hden

/-- Witness for C9 at rate 1/10 and a 2-year lifetime. -/
theorem c9_witness :
    (0 : ℚ) < 1 / 10 ∧ 0 < 2 ∧
      (crf (1 / 10) 2 = (1 / 10) / (1 - (1 + 1 / 10) ^ (-(2 : ℕ) : ℤ)) ∧
        0 < crf (1 / 10) 2 ∧ crf 0 2 = 1 / (2 : ℕ)) :=
  ⟨by norm_num, by norm_num,
    c9_crf_formula_positive_and_zero_case (1 / 10) 2 (by norm_num) (by norm_num)⟩

/-- C6: `InjectIntoDistributedGrid[z,t]` is exactly
`WithdrawFromCentralGrid[z,t] * (1 - distribution_loss_rate)`; the withdrawal
is non-negative under its declared domain; and the injection expression
coincides with the withdrawal variable (for all admissible assignments)
exactly when the loss rate is zero. -/
theorem c6_inject_equals_withdraw_net_of_loss (m : LocalTDModel)
    (W : ℕ → ℕ → ℚ) (z t : ℕ)
    (hdom : WithdrawFromCentralGrid_domain m W)
    (hzt : (z, t) ∈ ZONE_TIMEPOINTS m) :
    InjectIntoDistributedGrid m W z t = W z t * (1 - m.distribution_loss_rate) ∧
    0 ≤ W z t ∧
    ((∀ V : ℕ → ℕ → ℚ, WithdrawFromCentralGrid_domain m V →
        InjectIntoDistributedGrid m V z t = V z t) ↔
      m.distribution_loss_rate = 0) := by
  refine ⟨rfl, hdom (z, t) hzt, ?_, ?_⟩
  · intro h
    have h1 : (1 : ℚ) * (1 - m.distribution_loss_rate) = 1 :=
      h (fun _ _ => 1) (fun zt _ => zero_le_one)
    linarith
  · intro h0 V _
    show V z t * (1 - m.distribution_loss_rate) = V z t
    rw [h0]
    ring

/-- A concrete one-zone, one-timepoint local T&D model with the default
distribution loss rate, used to instantiate the local T&D theorems. -/
def demoLocalTD : LocalTDModel where
  LOAD_ZONES := [0]
  PERIODS := [2020]
  TIMEPOINTS := [0]
  tp_period := fun _ => 2020
  existing_local_td := fun _ => 9
  local_td_annual_cost_per_mw := fun _ => 0
  distribution_loss_rate := 53 / 1000
  EXTERNAL_COINCIDENT_PEAK_DEMAND_ZONE_PERIODS := [(0, 2020)]
  zone_expected_coincident_peak_demand := fun _ _ => 8

/-- Witness for C6 on `demoLocalTD` with a constant admissible withdrawal of
7 MW. -/
theorem c6_witness :
    WithdrawFromCentralGrid_domain demoLocalTD (fun _ _ => 7) ∧
    (0, 0) ∈ ZONE_TIMEPOINTS demoLocalTD ∧
    (InjectIntoDistributedGrid demoLocalTD (fun _ _ => 7) 0 0 =
        7 * (1 - demoLocalTD.distribution_loss_rate) ∧
      (0 : ℚ) ≤ 7 ∧
      ((∀ V : ℕ → ℕ → ℚ, WithdrawFromCentralGrid_domain demoLocalTD V →
          InjectIntoDistributedGrid demoLocalTD V 0 0 = V 0 0) ↔
        demoLocalTD.distribution_loss_rate = 0)) :=
  ⟨fun zt _ => by norm_num, by decide,
    c6_inject_equals_withdraw_net_of_loss demoLocalTD (fun _ _ => 7) 0 0
      (fun zt _ => by norm_num) (by decide)⟩

/-- C5: the compiled `Enforce_Local_TD_Capacity_Limit` constraint bounds
`WithdrawFromCentralGrid[z,t]` by the local-distribution ledger capacity for
the period containing `t`, times the local asset's derating factor (which is
the default 1, as `local_td.py` declares no derating parameter for the local
asset). -/
theorem c5_withdraw_bounded_by_local_td_capacity (m : LocalTDModel)
    (BL W : ℕ → ℕ → ℚ) (z t : ℕ)
    (hc : Enforce_Local_TD_Capacity_Limit m BL W)
    (hzt : (z, t) ∈ ZONE_TIMEPOINTS m) :
    W z t ≤ LocalTDCapacity m BL z (m.tp_period t) * local_td_derating_factor := by
  have h := hc (z, t) hzt
  simpa [local_td_derating_factor] using h

/-- Witness for C5 on `demoLocalTD` with no new builds and a constant
withdrawal of 7 MW against 9 MW of existing local T&D capacity. -/
theorem c5_witness :
    Enforce_Local_TD_Capacity_Limit demoLocalTD (fun _ _ => 0) (fun _ _ => 7) ∧
    (0, 0) ∈ ZONE_TIMEPOINTS demoLocalTD ∧
    (7 : ℚ) ≤ LocalTDCapacity demoLocalTD (fun _ _ => 0) 0
        (demoLocalTD.tp_period 0) * local_td_derating_factor :=
  ⟨fun zt _ => by
      norm_num [LocalTDCapacity, CURRENT_AND_PRIOR_PERIODS_FOR_PERIOD, demoLocalTD],
    by decide,
    c5_withdraw_bounded_by_local_td_capacity demoLocalTD
      (fun _ _ => 0) (fun _ _ => 7) 0 0
      (fun zt _ => by
        norm_num [LocalTDCapacity, CURRENT_AND_PRIOR_PERIODS_FOR_PERIOD, demoLocalTD])
      (by decide)⟩

/-- C8 (amended): for every zone-period pair carrying an externally specified
coincident peak demand, the compiled `Meet_Local_TD` constraint requires the
local-distribution ledger capacity, net of distribution loss, to cover that
peak demand. -/
theorem c8_local_td_sizing_constraint (m : LocalTDModel) (BL : ℕ → ℕ → ℚ)
    (hc : Meet_Local_TD m BL) (z p : ℕ)
    (hzp : (z, p) ∈ m.EXTERNAL_COINCIDENT_PEAK_DEMAND_ZONE_PERIODS) :
    LocalTDCapacity m BL z p * (1 - m.distribution_loss_rate) ≥
      m.zone_expected_coincident_peak_demand z p :=
  hc (z, p) hzp

/-- Witness for C8 on `demoLocalTD`: 9 MW of capacity net of a 5.3 % loss
covers the 8 MW peak at the single indexed zone-period. -/
theorem c8_witness :
    Meet_Local_TD demoLocalTD (fun _ _ => 0) ∧
    (0, 2020) ∈ demoLocalTD.EXTERNAL_COINCIDENT_PEAK_DEMAND_ZONE_PERIODS ∧
    LocalTDCapacity demoLocalTD (fun _ _ => 0) 0 2020 *
        (1 - demoLocalTD.distribution_loss_rate) ≥
      demoLocalTD.zone_expected_coincident_peak_demand 0 2020 :=
  ⟨fun zp hzp => by
      have h : zp = (0, 2020) := List.mem_singleton.mp hzp
      subst h
      norm_num [LocalTDCapacity, CURRENT_AND_PRIOR_PERIODS_FOR_PERIOD, demoLocalTD],
    by decide,
    c8_local_td_sizing_constraint demoLocalTD (fun _ _ => 0)
      (fun zp hzp => by
        have h : zp = (0, 2020) := List.mem_singleton.mp hzp
        subst h
        norm_num [LocalTDCapacity, CURRENT_AND_PRIOR_PERIODS_FOR_PERIOD, demoLocalTD])
      0 2020 (by decide)⟩

/-- A local T&D model whose external coincident peak demand set is empty even
though it has a load zone and a period with a positive peak demand value. -/
def localTDWithoutPeakSet : LocalTDModel where
  LOAD_ZONES := [0]
  PERIODS := [2020]
  TIMEPOINTS := [0]
  tp_period := fun _ => 2020
  existing_local_td := fun _ => 0
  local_td_annual_cost_per_mw := fun _ => 0
  distribution_loss_rate := 0
  EXTERNAL_COINCIDENT_PEAK_DEMAND_ZONE_PERIODS := []
  zone_expected_coincident_peak_demand := fun _ _ => 100

/-- Counterexample for C8 as stated: `Meet_Local_TD` is indexed only over
`EXTERNAL_COINCIDENT_PEAK_DEMAND_ZONE_PERIODS`, so a model whose peak-demand
set is empty satisfies every compiled sizing constraint even though the
claimed inequality fails at load zone 0 and period 2020. -/
theorem c8_counterexample :
    Meet_Local_TD localTDWithoutPeakSet (fun _ _ => 0) ∧
    0 ∈ localTDWithoutPeakSet.LOAD_ZONES ∧
    2020 ∈ localTDWithoutPeakSet.PERIODS ∧
    ¬ (LocalTDCapacity localTDWithoutPeakSet (fun _ _ => 0) 0 2020 *
          (1 - localTDWithoutPeakSet.distribution_loss_rate) ≥
        localTDWithoutPeakSet.zone_expected_coincident_peak_demand 0 2020) := by
  refine ⟨?_, by decide, by decide, ?_⟩
  · intro zp hzp
    exact absurd hzp (List.not_mem_nil zp)
  · norm_num [LocalTDCapacity, CURRENT_AND_PRIOR_PERIODS_FOR_PERIOD,
      localTDWithoutPeakSet]

/-- C3: with non-negative build quantities, both the transmission nameplate
capacity and the local T&D ledger capacity are non-decreasing in period
order. -/
theorem c3_capacity_monotone (m : TransBuildModel) (lm : LocalTDModel)
    (B BL : ℕ → ℕ → ℚ) (tx z p₁ p₂ : ℕ)
    (hB : ∀ u b, 0 ≤ B u b) (hBL : ∀ y b, 0 ≤ BL y b) (h12 : p₁ ≤ p₂) :
    TxCapacityNameplate m B tx p₁ ≤ TxCapacityNameplate m B tx p₂ ∧
    LocalTDCapacity lm BL z p₁ ≤ LocalTDCapacity lm BL z p₂ := by
  constructor
  · unfold TxCapacityNameplate NewTxCapacity
    apply add_le_add_right
    apply sum_map_filter_mono
    · intro b hb
      simp only [Bool.and_eq_true, decide_eq_true_eq] at hb ⊢
      exact ⟨le_trans hb.1 h12, hb.2⟩
    · intro b _
      exact hB tx b
  · unfold LocalTDCapacity CURRENT_AND_PRIOR_PERIODS_FOR_PERIOD
    apply add_le_add_left
    apply sum_map_filter_mono
    · intro b hb
      simp only [decide_eq_true_eq] at hb ⊢
      exact le_trans hb h12
    · intro b _
      exact hBL z b

/-- A concrete one-line, two-period transmission model with the module's
default cost parameters. -/
def demoTransBuild : TransBuildModel where
  TRANSMISSION_LINES := [0]
  PERIODS := [2020, 2030]
  trans_lz1 := fun _ => 0
  trans_lz2 := fun _ => 1
  trans_length_km := fun _ => 100
  trans_efficiency := fun _ => 96 / 100
  existing_trans_cap := fun _ => 50
  trans_derating_factor := fun _ => 1
  trans_terrain_multiplier := fun _ => 1
  trans_new_build_allowed := fun _ => true
  trans_capital_cost_per_mw_km := 1000
  trans_capital_cost_finite := true
  trans_lifetime_yrs := 20
  trans_fixed_om_fraction := 3 / 100
  interest_rate := 5 / 100

/-- Witness for C3 with unit builds everywhere, from period 2020 to 2030. -/
theorem c3_witness :
    (2020 : ℕ) ≤ 2030 ∧
    (TxCapacityNameplate demoTransBuild (fun _ _ => 1) 0 2020 ≤
        TxCapacityNameplate demoTransBuild (fun _ _ => 1) 0 2030 ∧
      LocalTDCapacity demoLocalTD (fun _ _ => 1) 0 2020 ≤
        LocalTDCapacity demoLocalTD (fun _ _ => 1) 0 2030) :=
  ⟨by decide,
    c3_capacity_monotone demoTransBuild demoLocalTD (fun _ _ => 1) (fun _ _ => 1)
      0 0 2020 2030 (fun _ _ => zero_le_one) (fun _ _ => zero_le_one) (by decide)⟩

/-- A one-line, two-period transmission model with unit cost parameters: the
annual unit cost reduces to 1, which keeps the cost evaluations below
transparent. -/
def txCumulative : TransBuildModel where
  TRANSMISSION_LINES := [0]
  PERIODS := [2020, 2030]
  trans_lz1 := fun _ => 0
  trans_lz2 := fun _ => 1
  trans_length_km := fun _ => 1
  trans_efficiency := fun _ => 1
  existing_trans_cap := fun _ => 0
  trans_derating_factor := fun _ => 1
  trans_terrain_multiplier := fun _ => 1
  trans_new_build_allowed := fun _ => true
  trans_capital_cost_per_mw_km := 1
  trans_capital_cost_finite := true
  trans_lifetime_yrs := 1
  trans_fixed_om_fraction := 0
  interest_rate := 0

/-- A build schedule on `txCumulative` that installs 10 MW in period 2020 and
nothing in period 2030. -/
def buildTenIn2020 : ℕ → ℕ → ℚ := fun _ b => if b = 2020 then 10 else 0

/-- Counterexample for C2 as stated: in period 2030, line 0 of `txCumulative`
has an incremental build of 0 MW, yet `TxLineCosts` charges for the 10 MW
built in 2020 as well — the cost is based on the cumulative, not incremental,
new capacity. -/
theorem c2_counterexample :
    TRANS_BLD_YRS_mem txCumulative 0 2030 = true ∧
    TxLineCosts txCumulative buildTenIn2020 0 2030 ≠
      buildTenIn2020 0 2030 * trans_cost_annual txCumulative 0 := by
  refine ⟨by decide, ?_⟩
  have hmem : TRANS_BLD_YRS_mem txCumulative 0 2030 = true := by decide
  have hfilter : txCumulative.PERIODS.filter
      (fun b => b ≤ 2030 && TRANS_BLD_YRS_mem txCumulative 0 b) = [2020, 2030] := by
    decide
  unfold TxLineCosts NewTxCapacity
  rw [if_pos hmem, hfilter]
  norm_num [buildTenIn2020, trans_cost_annual, crf, txCumulative]

/-- C2 (amended): for `(tx, p)` in `TRANS_BLD_YRS`, the period fixed cost
`TxLineCosts[tx, p]` is the cumulative capacity newly built in all periods up
to and including `p` (pre-existing capacity excluded) times the per-line
annual unit cost; it is 0 for pairs outside `TRANS_BLD_YRS`; and
`TxFixedCosts[p]` is the sum over all transmission lines. -/
theorem c2_tx_line_costs_cumulative (m : TransBuildModel) (B : ℕ → ℕ → ℚ)
    (tx p : ℕ) (h : TRANS_BLD_YRS_mem m tx p = true) :
    TxLineCosts m B tx p =
      ((m.PERIODS.filter (fun b => b ≤ p)).map (fun b => B tx b)).sum *
        trans_cost_annual m tx ∧
    (∀ u q, TRANS_BLD_YRS_mem m u q = false → TxLineCosts m B u q = 0) ∧
    (∀ q, TxFixedCosts m B q =
      (m.TRANSMISSION_LINES.map (fun u => TxLineCosts m B u q)).sum) := by
  have hcomp := h
  unfold TRANS_BLD_YRS_mem at hcomp
  simp only [Bool.and_eq_true, decide_eq_true_eq] at hcomp
  refine ⟨?_, ?_, fun q => rfl⟩
  · have hfeq : m.PERIODS.filter (fun b => b ≤ p && TRANS_BLD_YRS_mem m tx b)
        = m.PERIODS.filter (fun b => b ≤ p) := by
      apply List.filter_congr
      intro b hb
      have hmem : TRANS_BLD_YRS_mem m tx b = true := by
        unfold TRANS_BLD_YRS_mem
        simp only [Bool.and_eq_true, decide_eq_true_eq]
        exact ⟨⟨⟨hcomp.1.1.1, hb⟩, hcomp.1.2⟩, hcomp.2⟩
      rw [hmem, Bool.and_true]
    unfold TxLineCosts NewTxCapacity
    rw [if_pos h, hfeq]
  · intro u q hfalse
    unfold TxLineCosts
    rw [if_neg]
    simp [hfalse]

/-- Witness for C2 (amended) on `txCumulative` with the 2020-only build
schedule, at period 2030. -/
theorem c2_witness :
    TRANS_BLD_YRS_mem txCumulative 0 2030 = true ∧
    (TxLineCosts txCumulative buildTenIn2020 0 2030 =
        ((txCumulative.PERIODS.filter (fun b => b ≤ 2030)).map
          (fun b => buildTenIn2020 0 b)).sum * trans_cost_annual txCumulative 0 ∧
      (∀ u q, TRANS_BLD_YRS_mem txCumulative u q = false →
        TxLineCosts txCumulative buildTenIn2020 u q = 0) ∧
      (∀ q, TxFixedCosts txCumulative buildTenIn2020 q =
        (txCumulative.TRANSMISSION_LINES.map
          (fun u => TxLineCosts txCumulative buildTenIn2020 u q)).sum)) :=
  ⟨by decide,
    c2_tx_line_costs_cumulative txCumulative buildTenIn2020 0 2030 (by decide)⟩

/-- Two transmission lines connect the same unordered pair of load zones
(in either declared orientation). -/
def sameCorridor (m : TransBuildModel) (tx u : ℕ) : Prop :=
  (m.trans_lz1 tx = m.trans_lz1 u ∧ m.trans_lz2 tx = m.trans_lz2 u) ∨
  (m.trans_lz1 tx = m.trans_lz2 u ∧ m.trans_lz2 tx = m.trans_lz1 u)

instance (m : TransBuildModel) (tx u : ℕ) : Decidable (sameCorridor m tx u) :=
  inferInstanceAs (Decidable (Or _ _))

/-- Membership in the directional-pair list derived from an edge list. -/
theorem mem_dirPairs {l : List ℕ} {f g : ℕ → ℕ} {x y : ℕ} :
    (x, y) ∈ (l.flatMap (fun tx => [(f tx, g tx), (g tx, f tx)])).toFinset ↔
      ∃ u ∈ l, (f u = x ∧ g u = y) ∨ (g u = x ∧ f u = y) := by
  rw [List.mem_toFinset, List.mem_flatMap]
  constructor
  · rintro ⟨u, hu, hmem⟩
    refine ⟨u, hu, ?_⟩
    simp only [List.mem_cons, List.not_mem_nil, or_false] at hmem
    rcases hmem with h | h
    · exact Or.inl ⟨(congrArg Prod.fst h).symm, (congrArg Prod.snd h).symm⟩
    · exact Or.inr ⟨(congrArg Prod.fst h).symm, (congrArg Prod.snd h).symm⟩
  · rintro ⟨u, hu, h⟩
    refine ⟨u, hu, ?_⟩
    rcases h with ⟨h1, h2⟩ | ⟨h1, h2⟩
    · rw [← h1, ← h2]
      exact List.mem_cons_self _ _
    · rw [← h1, ← h2]
      exact List.mem_cons_of_mem _ (List.mem_cons_self _ _)

/-- Membership characterisation of `DIRECTIONAL_TX`. -/
theorem mem_DIRECTIONAL_TX {m : TransBuildModel} {zf zt : ℕ} :
    (zf, zt) ∈ DIRECTIONAL_TX m ↔
      ∃ u ∈ m.TRANSMISSION_LINES,
        (m.trans_lz1 u = zf ∧ m.trans_lz2 u = zt) ∨
        (m.trans_lz2 u = zf ∧ m.trans_lz1 u = zt) :=
  mem_dirPairs

/-- Counting the directional pairs derived from an edge list in which every
edge has distinct endpoints and no two distinct edges share an unordered
endpoint pair. -/
theorem dirPairs_card (lines : List ℕ) (f g : ℕ → ℕ)
    (hnd : lines.Nodup)
    (hne : ∀ tx ∈ lines, f tx ≠ g tx)
    (huniq : ∀ tx ∈ lines, ∀ u ∈ lines,
      ((f tx = f u ∧ g tx = g u) ∨ (f tx = g u ∧ g tx = f u)) → tx = u) :
    (lines.flatMap (fun tx => [(f tx, g tx), (g tx, f tx)])).toFinset.card
      = 2 * lines.length := by
  induction lines with
  | nil => simp
  | cons a l ih =>
    have hal : a ∉ l := (List.nodup_cons.mp hnd).1
    have hnd' : l.Nodup := (List.nodup_cons.mp hnd).2
    have hne' : ∀ tx ∈ l, f tx ≠ g tx :=
      fun tx h => hne tx (List.mem_cons_of_mem a h)
    have huniq' : ∀ tx ∈ l, ∀ u ∈ l,
        ((f tx = f u ∧ g tx = g u) ∨ (f tx = g u ∧ g tx = f u)) → tx = u :=
      fun tx h u hu =>
        huniq tx (List.mem_cons_of_mem a h) u (List.mem_cons_of_mem a hu)
    have hga : (g a, f a) ∉
        (l.flatMap (fun tx => [(f tx, g tx), (g tx, f tx)])).toFinset := by
      intro hmem
      obtain ⟨u, hu, hcase⟩ := mem_dirPairs.mp hmem
      have hau : a = u := by
        rcases hcase with ⟨h1, h2⟩ | ⟨h1, h2⟩
        · exact huniq a (List.mem_cons_self a l) u (List.mem_cons_of_mem a hu)
            (Or.inr ⟨h2.symm, h1.symm⟩)
        · exact huniq a (List.mem_cons_self a l) u (List.mem_cons_of_mem a hu)
            (Or.inl ⟨h2.symm, h1.symm⟩)
      exact hal (hau ▸ hu)
    have hfa : (f a, g a) ∉ insert (g a, f a)
        (l.flatMap (fun tx => [(f tx, g tx), (g tx, f tx)])).toFinset := by
      intro hmem
      rcases Finset.mem_insert.mp hmem with h | h
      · exact hne a (List.mem_cons_self a l) (congrArg Prod.fst h)
      · obtain ⟨u, hu, hcase⟩ := mem_dirPairs.mp h
        have hau : a = u := by
          rcases hcase with ⟨h1, h2⟩ | ⟨h1, h2⟩
          · exact huniq a (List.mem_cons_self a l) u (List.mem_cons_of_mem a hu)
              (Or.inl ⟨h1.symm, h2.symm⟩)
          · exact huniq a (List.mem_cons_self a l) u (List.mem_cons_of_mem a hu)
              (Or.inr ⟨h1.symm, h2.symm⟩)
        exact hal (hau ▸ hu)
    have hpair : ([(f a, g a), (g a, f a)]).toFinset ∪
        (l.flatMap fun tx => [(f tx, g tx), (g tx, f tx)]).toFinset
        = insert (f a, g a) (insert (g a, f a)
            (l.flatMap fun tx => [(f tx, g tx), (g tx, f tx)]).toFinset) := by
      ext x
      simp [or_assoc]
    rw [List.flatMap_cons, List.toFinset_append, hpair,
      Finset.card_insert_of_not_mem hfa, Finset.card_insert_of_not_mem hga,
      ih hnd' hne' huniq', List.length_cons]
    ring

/-- C4 (amended): when no line is a self-loop and no two distinct lines
connect the same unordered zone pair, the derived `DIRECTIONAL_TX` set has
exactly `2N` members for `N` input lines, and `init_trans_d_line` maps each
of a line's two directional pairs back to that line. -/
theorem c4_directional_pairs_card_and_lookup (m : TransBuildModel)
    (hnd : m.TRANSMISSION_LINES.Nodup)
    (hne : ∀ tx ∈ m.TRANSMISSION_LINES, m.trans_lz1 tx ≠ m.trans_lz2 tx)
    (huniq : ∀ tx ∈ m.TRANSMISSION_LINES, ∀ u ∈ m.TRANSMISSION_LINES,
      sameCorridor m tx u → tx = u) :
    (DIRECTIONAL_TX m).card = 2 * m.TRANSMISSION_LINES.length ∧
    ∀ tx ∈ m.TRANSMISSION_LINES,
      init_trans_d_line m (m.trans_lz1 tx) (m.trans_lz2 tx) = some tx ∧
      init_trans_d_line m (m.trans_lz2 tx) (m.trans_lz1 tx) = some tx := by
  constructor
  · exact dirPairs_card m.TRANSMISSION_LINES m.trans_lz1 m.trans_lz2 hnd hne huniq
  · intro tx htx
    constructor
    · apply find?_eq_some_of_unique htx
      · simp
      · intro b hb hpb
        simp only [Bool.or_eq_true, Bool.and_eq_true, beq_iff_eq] at hpb
        rcases hpb with ⟨h1, h2⟩ | ⟨h1, h2⟩
        · exact huniq b hb tx htx (Or.inl ⟨h1, h2⟩)
        · exact huniq b hb tx htx (Or.inr ⟨h2, h1⟩)
    · apply find?_eq_some_of_unique htx
      · simp
      · intro b hb hpb
        simp only [Bool.or_eq_true, Bool.and_eq_true, beq_iff_eq] at hpb
        rcases hpb with ⟨h1, h2⟩ | ⟨h1, h2⟩
        · exact huniq b hb tx htx (Or.inr ⟨h1, h2⟩)
        · exact huniq b hb tx htx (Or.inl ⟨h2, h1⟩)

/-- A two-line network on two disjoint corridors: line 0 joins zones 3 and 4,
line 1 joins zones 5 and 6. -/
def twoLineNetwork : TransBuildModel where
  TRANSMISSION_LINES := [0, 1]
  PERIODS := [2020]
  trans_lz1 := fun tx => if tx = 0 then 3 else 5
  trans_lz2 := fun tx => if tx = 0 then 4 else 6
  trans_length_km := fun _ => 1
  trans_efficiency := fun _ => 1
  existing_trans_cap := fun _ => 0
  trans_derating_factor := fun _ => 1
  trans_terrain_multiplier := fun _ => 1
  trans_new_build_allowed := fun _ => true
  trans_capital_cost_per_mw_km := 1
  trans_capital_cost_finite := true
  trans_lifetime_yrs := 1
  trans_fixed_om_fraction := 0
  interest_rate := 0

/-- Witness for C4 (amended) on `twoLineNetwork`: 2 lines yield 4 directional
pairs, each resolving back to its line. -/
theorem c4_witness :
    twoLineNetwork.TRANSMISSION_LINES.Nodup ∧
    (∀ tx ∈ twoLineNetwork.TRANSMISSION_LINES,
      twoLineNetwork.trans_lz1 tx ≠ twoLineNetwork.trans_lz2 tx) ∧
    (∀ tx ∈ twoLineNetwork.TRANSMISSION_LINES,
      ∀ u ∈ twoLineNetwork.TRANSMISSION_LINES,
        sameCorridor twoLineNetwork tx u → tx = u) ∧
    ((DIRECTIONAL_TX twoLineNetwork).card =
        2 * twoLineNetwork.TRANSMISSION_LINES.length ∧
      ∀ tx ∈ twoLineNetwork.TRANSMISSION_LINES,
        init_trans_d_line twoLineNetwork (twoLineNetwork.trans_lz1 tx)
            (twoLineNetwork.trans_lz2 tx) = some tx ∧
          init_trans_d_line twoLineNetwork (twoLineNetwork.trans_lz2 tx)
            (twoLineNetwork.trans_lz1 tx) = some tx) :=
  ⟨by decide, by decide, by decide,
    c4_directional_pairs_card_and_lookup twoLineNetwork
      (by decide) (by decide) (by decide)⟩

/-- A single self-loop line: both endpoints are zone 7. -/
def selfLoopLine : TransBuildModel where
  TRANSMISSION_LINES := [0]
  PERIODS := [2020]
  trans_lz1 := fun _ => 7
  trans_lz2 := fun _ => 7
  trans_length_km := fun _ => 1
  trans_efficiency := fun _ => 1
  existing_trans_cap := fun _ => 0
  trans_derating_factor := fun _ => 1
  trans_terrain_multiplier := fun _ => 1
  trans_new_build_allowed := fun _ => true
  trans_capital_cost_per_mw_km := 1
  trans_capital_cost_finite := true
  trans_lifetime_yrs := 1
  trans_fixed_om_fraction := 0
  interest_rate := 0

/-- Counterexample for C4 as stated: a single line whose two endpoints
coincide contributes only one directional pair, so `DIRECTIONAL_TX` has 1
member instead of the claimed `2N = 2`. -/
theorem c4_counterexample :
    (DIRECTIONAL_TX selfLoopLine).card = 1 ∧
    ¬ ((DIRECTIONAL_TX selfLoopLine).card =
        2 * selfLoopLine.TRANSMISSION_LINES.length) := by
  decide

/-- C10: every member of `DIRECTIONAL_TX` resolves through
`init_trans_d_line` to some transmission line (the scan never falls through),
and the returned line's endpoints are the pair's two zones in one of the two
orientations. -/
theorem c10_trans_d_line_total (m : TransBuildModel) (zf zt : ℕ)
    (h : (zf, zt) ∈ DIRECTIONAL_TX m) :
    ∃ tx, init_trans_d_line m zf zt = some tx ∧
      tx ∈ m.TRANSMISSION_LINES ∧
      ((m.trans_lz1 tx = zf ∧ m.trans_lz2 tx = zt) ∨
       (m.trans_lz2 tx = zf ∧ m.trans_lz1 tx = zt)) := by
  obtain ⟨u, hu, hcase⟩ := mem_DIRECTIONAL_TX.mp h
  have hpu : ((m.trans_lz1 u == zf && m.trans_lz2 u == zt) ||
      (m.trans_lz2 u == zf && m.trans_lz1 u == zt)) = true := by
    simp only [Bool.or_eq_true, Bool.and_eq_true, beq_iff_eq]
    exact hcase
  have hsome : (m.TRANSMISSION_LINES.find? (fun v =>
      (m.trans_lz1 v == zf && m.trans_lz2 v == zt) ||
      (m.trans_lz2 v == zf && m.trans_lz1 v == zt))).isSome := by
    rw [List.find?_isSome]
    exact ⟨u, hu, hpu⟩
  obtain ⟨tx, htx⟩ := Option.isSome_iff_exists.mp hsome
  have hmem := List.mem_of_find?_eq_some htx
  have hptx := List.find?_some htx
  simp only [Bool.or_eq_true, Bool.and_eq_true, beq_iff_eq] at hptx
  exact ⟨tx, htx, hmem, hptx⟩

/-- Witness for C10 at the directional pair (4, 3) of `twoLineNetwork`. -/
theorem c10_witness :
    (4, 3) ∈ DIRECTIONAL_TX twoLineNetwork ∧
    (∃ tx, init_trans_d_line twoLineNetwork 4 3 = some tx ∧
      tx ∈ twoLineNetwork.TRANSMISSION_LINES ∧
      ((twoLineNetwork.trans_lz1 tx = 4 ∧ twoLineNetwork.trans_lz2 tx = 3) ∨
       (twoLineNetwork.trans_lz2 tx = 4 ∧ twoLineNetwork.trans_lz1 tx = 3))) :=
  ⟨by decide, c10_trans_d_line_total twoLineNetwork 4 3 (by decide)⟩

/-- Two declared lines covering the same corridor in opposite order: line 0
is (3, 4), line 1 is (4, 3). -/
def oppositeDuplicateLines : TransBuildModel where
  TRANSMISSION_LINES := [0, 1]
  PERIODS := [2020]
  trans_lz1 := fun tx => if tx = 0 then 3 else 4
  trans_lz2 := fun tx => if tx = 0 then 4 else 3
  trans_length_km := fun _ => 1
  trans_efficiency := fun _ => 1
  existing_trans_cap := fun _ => 0
  trans_derating_factor := fun _ => 1
  trans_terrain_multiplier := fun _ => 1
  trans_new_build_allowed := fun _ => true
  trans_capital_cost_per_mw_km := 1
  trans_capital_cost_finite := true
  trans_lifetime_yrs := 1
  trans_fixed_om_fraction := 0
  interest_rate := 0

/-- C7: evaluating the model-construction code on two lines that connect the
same unordered zone pair in opposite declared order.  No rejection occurs
anywhere in `define_components`: the directional set simply merges, and both
directional pairs silently resolve to the first declared line (line 1 is
shadowed), contradicting the module's own documentation that such input
"will generate an error". -/
theorem c7_opposite_duplicate_lines_not_rejected :
    (3, 4) ∈ DIRECTIONAL_TX oppositeDuplicateLines ∧
    (4, 3) ∈ DIRECTIONAL_TX oppositeDuplicateLines ∧
    (DIRECTIONAL_TX oppositeDuplicateLines).card = 2 ∧
    init_trans_d_line oppositeDuplicateLines 3 4 = some 0 ∧
    init_trans_d_line oppositeDuplicateLines 4 3 = some 0 := by
  decide

end SwitchWecc
